import Mathlib

/-!
Verification of the geany-lsp core against its specification.

The development shallowly embeds the C sources under src/plugins/lsp/:
- lsp-sync.c   : document synchronization engine (open/close/save/change,
                 per-path version counters stored in a global hash table);
- lsp-server.c : session lifecycle (start/restart/crash ceiling), capability
                 negotiation in the initialize callback, the two-phase
                 shutdown, and the session registry with reference-language
                 aliasing.

Stateful C code is modelled by explicit state passing; the GLib hash tables
become association lists with first-match lookup (an insert prepends, which
matches the replace semantics of g_hash_table_insert under that lookup); emitted
JSON-RPC notifications become values returned alongside the new state.
-/

namespace Sync

/-- The fields of a GeanyDocument that lsp-sync.c reads: its identity (the
hash table open_docs is keyed by the document pointer), its real file path
(NULL for unsaved documents), its current full buffer text
(sci_get_contents), its URI and its LSP language identifier. -/
structure GeanyDocument where
  id : Nat
  real_path : Option String
  text : String
  uri : String
  lang_id : String
deriving DecidableEq, Repr

/-- lsp-sync.c static state: the open_docs hash table (keyed by document)
and the doc_version_nums hash table (real path -> last version). -/
structure SyncState where
  open_docs : List Nat
  doc_version_nums : List (String × Nat)
deriving DecidableEq, Repr

/-- Fresh state before any document activity. -/
def SyncState.empty : SyncState := { open_docs := [], doc_version_nums := [] }

/-- First-match association-list lookup, modelling g_hash_table_lookup. -/
def lookupVer : List (String × Nat) → String → Option Nat
  | [], _ => none
  | kv :: rest, p => if kv.1 = p then some kv.2 else lookupVer rest p

/-- g_hash_table_insert: the new binding shadows any previous one (we
prepend; lookupVer takes the first match). -/
def insertVer (m : List (String × Nat)) (p : String) (n : Nat) : List (String × Nat) :=
  (p, n) :: m

/-- The version currently recorded for path p (0 when absent, matching
GPOINTER_TO_UINT of a NULL lookup result). -/
def versionOf (st : SyncState) (p : String) : Nat :=
  (lookupVer st.doc_version_nums p).getD 0

/-- get_next_doc_version_num (lsp-sync.c lines 45-59): returns 0 for
documents without a real path; otherwise increments the per-path counter,
stores it back and returns it. -/
def get_next_doc_version_num (doc : GeanyDocument) (st : SyncState) : Nat × SyncState :=
  match doc.real_path with
  | none => (0, st)
  | some p =>
      let num := versionOf st p + 1
      (num, { st with doc_version_nums := insertVer st.doc_version_nums p num })

/-- lsp_sync_is_document_open (lines 62-65). -/
def lsp_sync_is_document_open (st : SyncState) (doc : GeanyDocument) : Bool :=
  st.open_docs.contains doc.id

/-- lsp_sync_init (lines 37-42): clears open_docs only; the version table
doc_version_nums is left untouched. -/
def lsp_sync_init (st : SyncState) : SyncState :=
  { st with open_docs := [] }

/-- The payload of a textDocument/didOpen notification. -/
structure DidOpenNote where
  uri : String
  languageId : String
  version : Nat
  text : String
deriving DecidableEq, Repr

/-- One entry of the contentChanges array of a didChange notification:
either a range replacement (incremental sync) or a full-text replacement. -/
inductive ContentChange where
  | rangeChange (startLine startChar endLine endChar : Int) (text : String)
  | fullChange (text : String)
deriving DecidableEq, Repr

/-- The payload of a textDocument/didChange notification. -/
structure DidChangeNote where
  uri : String
  version : Nat
  contentChanges : List ContentChange
deriving DecidableEq, Repr

/-- lsp_sync_text_document_did_open (lines 68-104): no-op when the document
is already in open_docs; otherwise adds it, draws the next version number
and emits one didOpen notification with URI, language id, version and the
full buffer text. -/
def lsp_sync_text_document_did_open (doc : GeanyDocument) (st : SyncState) :
    SyncState × Option DidOpenNote :=
  if lsp_sync_is_document_open st doc then (st, none)
  else
    let st1 : SyncState := { st with open_docs := doc.id :: st.open_docs }
    let r := get_next_doc_version_num doc st1
    (r.2, some { uri := doc.uri, languageId := doc.lang_id, version := r.1, text := doc.text })

/-- lsp_sync_text_document_did_close (lines 107-131): no-op when not open;
otherwise removes the open record (no version activity). -/
def lsp_sync_text_document_did_close (doc : GeanyDocument) (st : SyncState) :
    SyncState × Bool :=
  if lsp_sync_is_document_open st doc then
    ({ st with open_docs := st.open_docs.filter (fun i => i ≠ doc.id) }, true)
  else (st, false)

/-- lsp_sync_text_document_did_save (lines 134-155): always emits, touches
no sync state and no version counter. -/
def lsp_sync_text_document_did_save (_doc : GeanyDocument) (st : SyncState) : SyncState :=
  st

/-- lsp_sync_text_document_did_change (lines 158-209): draws the next
version; with incremental sync emits one range change carrying the supplied
start/end positions and the replacement text, otherwise one full change
carrying the entire current buffer text. -/
def lsp_sync_text_document_did_change (use_incremental_sync : Bool)
    (doc : GeanyDocument) (startLine startChar endLine endChar : Int)
    (text : String) (st : SyncState) : SyncState × DidChangeNote :=
  let r := get_next_doc_version_num doc st
  if use_incremental_sync then
    (r.2, { uri := doc.uri, version := r.1,
            contentChanges := [ContentChange.rangeChange startLine startChar endLine endChar text] })
  else
    (r.2, { uri := doc.uri, version := r.1,
            contentChanges := [ContentChange.fullChange doc.text] })

/-- The operations that can touch the sync state during one editor run. -/
inductive SyncOp where
  | openDoc (doc : GeanyDocument)
  | closeDoc (doc : GeanyDocument)
  | saveDoc (doc : GeanyDocument)
  | changeDoc (inc : Bool) (doc : GeanyDocument)
      (startLine startChar endLine endChar : Int) (text : String)
  | reinit
deriving Repr

/-- Apply one sync operation, discarding the emitted notification. -/
def applyOp (st : SyncState) : SyncOp → SyncState
  | SyncOp.openDoc doc => (lsp_sync_text_document_did_open doc st).1
  | SyncOp.closeDoc doc => (lsp_sync_text_document_did_close doc st).1
  | SyncOp.saveDoc doc => lsp_sync_text_document_did_save doc st
  | SyncOp.changeDoc inc doc a b c d t =>
      (lsp_sync_text_document_did_change inc doc a b c d t st).1
  | SyncOp.reinit => lsp_sync_init st

/-- Apply a list of sync operations in order. -/
def applyOps (st : SyncState) : List SyncOp → SyncState
  | [] => st
  | op :: rest => applyOps (applyOp st op) rest

end Sync

namespace Negotiate

/-- The parts of an initialize response that lsp-server.c reads. A field is
none when the corresponding JSON path is absent (or not of the type the
JSONRPC_MESSAGE_PARSE pattern requires), in which case the parse fails and
leaves the C output variable untouched. textDocumentSync may be a bare
number (textDocumentSyncNumber) or an object with a change field
(textDocumentSyncChange); real JSON supplies at most one of the two. -/
structure ServerCaps where
  completionTriggerCharacters : Option (List String)
  signatureTriggerCharacters : Option (List String)
  hoverProvider : Option Bool
  definitionProvider : Option Bool
  documentSymbolProvider : Option Bool
  documentHighlightProvider : Option Bool
  workspaceSymbolProvider : Option Bool
  textDocumentSyncChange : Option Int
  textDocumentSyncNumber : Option Int
  semanticTokensFullDelta : Option Bool
deriving DecidableEq, Repr

/-- A response declaring none of the capabilities lsp-server.c looks at. -/
def ServerCaps.absent : ServerCaps :=
  { completionTriggerCharacters := none, signatureTriggerCharacters := none,
    hoverProvider := none, definitionProvider := none,
    documentSymbolProvider := none, documentHighlightProvider := none,
    workspaceSymbolProvider := none, textDocumentSyncChange := none,
    textDocumentSyncNumber := none, semanticTokensFullDelta := none }

/-- get_autocomplete_trigger_chars (lsp-server.c lines 144-165): the
concatenation of the declared trigger strings; the empty string when the
capability is absent. -/
def get_autocomplete_trigger_chars (caps : ServerCaps) : String :=
  String.join (caps.completionTriggerCharacters.getD [])

/-- get_signature_trigger_chars (lines 226-247): same shape for
signatureHelpProvider.triggerCharacters. -/
def get_signature_trigger_chars (caps : ServerCaps) : String :=
  String.join (caps.signatureTriggerCharacters.getD [])

/-- supports_semantic_tokens (lines 168-182): the boolean at
semanticTokensProvider.full.delta; false when absent. -/
def supports_semantic_tokens (caps : ServerCaps) : Bool :=
  caps.semanticTokensFullDelta.getD false

/-- use_incremental_sync (lines 250-272): first tries the nested
textDocumentSync.change integer, then the bare textDocumentSync integer;
the result is true exactly when a parse succeeded and the value read is 2. -/
def use_incremental_sync (caps : ServerCaps) : Bool :=
  match caps.textDocumentSyncChange with
  | some v => v == 2
  | none =>
      match caps.textDocumentSyncNumber with
      | some v => v == 2
      | none => false

/-- The textDocumentSync capability value the response effectively declares:
the nested change field when present, else the bare numeric value. -/
def syncCapabilityValue (caps : ServerCaps) : Option Int :=
  match caps.textDocumentSyncChange with
  | some v => some v
  | none => caps.textDocumentSyncNumber

/-- update_config (lines 275-284): val starts FALSE, a successful parse of
the boolean capability overwrites it, and the option is cleared unless val
ended up true. -/
def update_config (capVal : Option Bool) (option : Bool) : Bool :=
  let val := capVal.getD false
  if !val then false else option

/-- The per-feature enable flags of LspServerConfig that the initialize
callback may modify. -/
structure FeatureFlags where
  autocomplete_enable : Bool
  signature_enable : Bool
  hover_enable : Bool
  goto_enable : Bool
  document_symbols_enable : Bool
  highlighting_enable : Bool
  semantic_tokens_enable : Bool
deriving DecidableEq, Repr

/-- The negotiated per-session fields produced by the initialize callback. -/
structure Negotiated where
  flags : FeatureFlags
  autocomplete_trigger_chars : String
  signature_trigger_chars : String
  supports_workspace_symbols : Bool
  incremental : Bool
deriving DecidableEq, Repr

/-- The success branch of initialize_cb (lines 291-343) restricted to the
capability negotiation it performs: trigger characters are stored and an
empty set force-disables the feature; hover/goto/document-symbols/highlight
flags pass through update_config; supports_workspace_symbols is reset to
TRUE and then passed through update_config; the sync mode comes from
use_incremental_sync; semantic tokens are disabled unless
supports_semantic_tokens holds. -/
def initialize_cb_caps (caps : ServerCaps) (f : FeatureFlags) : Negotiated :=
  let ac := get_autocomplete_trigger_chars caps
  let sg := get_signature_trigger_chars caps
  { flags :=
      { autocomplete_enable := if ac = "" then false else f.autocomplete_enable
        signature_enable := if sg = "" then false else f.signature_enable
        hover_enable := update_config caps.hoverProvider f.hover_enable
        goto_enable := update_config caps.definitionProvider f.goto_enable
        document_symbols_enable :=
          update_config caps.documentSymbolProvider f.document_symbols_enable
        highlighting_enable :=
          update_config caps.documentHighlightProvider f.highlighting_enable
        semantic_tokens_enable :=
          if supports_semantic_tokens caps then f.semantic_tokens_enable else false }
    autocomplete_trigger_chars := ac
    signature_trigger_chars := sg
    supports_workspace_symbols := update_config caps.workspaceSymbolProvider true
    incremental := use_incremental_sync caps }

end Negotiate

/-- is_dead (lsp-server.c lines 514-517): a session whose restart counter
has passed 5 is dead. The counter is a C gint, modelled as Int. -/
def is_dead (restarts : Int) : Bool := restarts > 5

namespace Lifecycle

/-- The LspServer fields driving the start/restart lifecycle. cmd_nonempty
abstracts the EMPTY(s->config.cmd) test of server_get_or_start_for_ft. -/
structure LspSrv where
  restarts : Int
  has_process : Bool
  startup_shutdown : Bool
  not_used : Bool
  cmd_nonempty : Bool
deriving DecidableEq, Repr

/-- A lifecycle trace: the current session for one language together with
counters of the observable effects: how many times
g_subprocess_launcher_spawnv was invoked and how many giving-up dialogs
were shown. -/
structure Trace where
  srv : LspSrv
  spawn_count : Nat
  dead_dialogs : Nat
deriving DecidableEq, Repr

/-- A freshly configured session (lsp_server_new via g_new0): counters and
flags zeroed. -/
def freshSrv : LspSrv :=
  { restarts := 0, has_process := false, startup_shutdown := false,
    not_used := false, cmd_nonempty := true }

/-- start_lsp_server (lines 520-581): increments restarts first; when the
session is now dead it shows the giving-up dialog and returns without
spawning; otherwise it invokes spawnv — on launch failure it reports and
returns, on success it wires the process and issues the initialize request
(perform_initialize sets startup_shutdown). spawn_ok says whether spawnv
succeeds. -/
def start_lsp_server (spawn_ok : Bool) (t : Trace) : Trace :=
  let srv := { t.srv with restarts := t.srv.restarts + 1 }
  if is_dead srv.restarts then
    { t with srv := srv, dead_dialogs := t.dead_dialogs + 1 }
  else if spawn_ok then
    { t with srv := { srv with has_process := true, startup_shutdown := true },
             spawn_count := t.spawn_count + 1 }
  else
    { t with srv := srv, spawn_count := t.spawn_count + 1 }

/-- The error branch of initialize_cb (lines 344-355): the old session is
stopped and discarded, a fresh one is created inheriting the accumulated
restarts, and started at once. -/
def initialize_cb_failed (spawn_ok : Bool) (t : Trace) : Trace :=
  start_lsp_server spawn_ok
    { t with srv := { freshSrv with
        restarts := t.srv.restarts,
        cmd_nonempty := t.srv.cmd_nonempty } }

/-- process_stopped (lines 494-511): when the exited process is still the
current one of the session, replace the session by a fresh one inheriting
restarts and start it. -/
def process_stopped (spawn_ok : Bool) (t : Trace) : Trace :=
  if t.srv.has_process then
    start_lsp_server spawn_ok
      { t with srv := { freshSrv with
          restarts := t.srv.restarts,
          cmd_nonempty := t.srv.cmd_nonempty } }
  else t

/-- The slice of server_get_or_start_for_ft (lines 683-741) that triggers a
start for a session with no reference language and launch_server = TRUE:
the guards in source order, then the EMPTY(cmd) test, then
start_lsp_server. -/
def trigger_start (spawn_ok : Bool) (t : Trace) : Trace :=
  if t.srv.startup_shutdown then t
  else if t.srv.has_process then t
  else if t.srv.not_used then t
  else if is_dead t.srv.restarts then t
  else if !t.srv.cmd_nonempty then { t with srv := { t.srv with not_used := true } }
  else start_lsp_server spawn_ok t

/-- The trace of a session whose initialize request fails n consecutive
times: the original trigger spawns the process, then each failure runs the
replace-and-restart path. -/
def afterFailures : Nat → Trace
  | 0 => start_lsp_server true { srv := freshSrv, spawn_count := 0, dead_dialogs := 0 }
  | n + 1 => initialize_cb_failed true (afterFailures n)

end Lifecycle

namespace Shutdown

/-- The observable shutdown state of one session: membership in the
servers_in_shutdown array, the startup_shutdown flag, which messages were
put on the wire and whether force_terminate ran. -/
structure ShutState where
  in_shutdown : Bool
  startup_shutdown : Bool
  shutdown_sent : Bool
  exit_sent : Bool
  force_terminated : Bool
deriving DecidableEq, Repr

/-- force_terminate (lsp-server.c lines 49-54): SIGTERM then forced exit. -/
def force_terminate (s : ShutState) : ShutState :=
  { s with force_terminated := true }

/-- exit_cb (lines 57-65): on an error of the exit notification the process
is force-terminated; either way the session leaves servers_in_shutdown. -/
def exit_cb (exit_error : Bool) (s : ShutState) : ShutState :=
  let s := if exit_error then force_terminate s else s
  { s with in_shutdown := false }

/-- shutdown_cb (lines 68-83): on success of the shutdown request the exit
notification is sent (its completion runs exit_cb); on failure the process
is force-terminated and the session leaves servers_in_shutdown. -/
def shutdown_cb (shutdown_error exit_error : Bool) (s : ShutState) : ShutState :=
  if !shutdown_error then
    exit_cb exit_error { s with exit_sent := true }
  else
    { force_terminate s with in_shutdown := false }

/-- stop_process (lines 86-93) followed by the eventual completion of its
callbacks: the session enters servers_in_shutdown, the shutdown request is
sent, and shutdown_cb runs with the outcome of that request;
shutdown_error / exit_error say whether the respective message failed. -/
def stop_process (shutdown_error exit_error : Bool) (s : ShutState) : ShutState :=
  let s := { s with startup_shutdown := true, in_shutdown := true, shutdown_sent := true }
  shutdown_cb shutdown_error exit_error s

end Shutdown

namespace Reg

/-- The LspServer fields that the session registry reads: lifecycle flags,
the cached referenced session, and the configured command line and
reference language. -/
structure RegSrv where
  startup_shutdown : Bool
  has_process : Bool
  not_used : Bool
  restarts : Int
  referenced : Option Nat
  ref_lang : Option String
  cmd : Option String
deriving Repr

/-- The lsp_servers array (one slot per filetype id) together with
filetypes_lookup_by_name. -/
structure Registry where
  servers : Nat → RegSrv
  ftByName : String → Option Nat

/-- Overwrite one slot of the registry. -/
def setServer (reg : Registry) (i : Nat) (srv : RegSrv) : Registry :=
  { reg with servers := fun k => if k = i then srv else reg.servers k }

/-- The outcome of server_get_or_start_for_ft: the updated registry, the
returned session index (none for NULL), and the indices on which
g_subprocess_launcher_spawnv was invoked. -/
structure ResolveResult where
  reg : Registry
  result : Option Nat
  spawned : List Nat

/-- start_lsp_server viewed through the registry fields: restarts is
incremented, a now-dead session spawns nothing, otherwise spawnv runs and
on success the process is wired and the initialize handshake begins. The
returned Bool records whether spawnv was invoked. -/
def reg_start_lsp_server (spawn_ok : Bool) (srv : RegSrv) : RegSrv × Bool :=
  let srv := { srv with restarts := srv.restarts + 1 }
  if is_dead srv.restarts then (srv, false)
  else if spawn_ok then ({ srv with has_process := true, startup_shutdown := true }, true)
  else (srv, true)

/-- The tail of server_get_or_start_for_ft (lines 725-741): strip the
command, mark the session not_used when the command is empty, otherwise
start it; in either case the function returns NULL because the handshake
has not completed. -/
def finish_start (spawn_ok : Bool) (reg : Registry) (i : Nat) : ResolveResult :=
  let s := reg.servers i
  let cmdStripped := s.cmd.map String.trim
  if cmdStripped.getD "" = "" then
    { reg := setServer reg i { s with cmd := none, not_used := true },
      result := none, spawned := [] }
  else
    let r := reg_start_lsp_server spawn_ok { s with cmd := cmdStripped }
    { reg := setServer reg i r.1, result := none,
      spawned := if r.2 then [i] else [] }

/-- server_get_or_start_for_ft (lines 683-741): dereference a cached
referenced session once, run the guards in source order, then resolve a
configured reference language (caching the target and returning it when its
process runs), and finally fall through to the command check and start. -/
def server_get_or_start_for_ft (spawn_ok : Bool) (reg : Registry) (ftId : Nat)
    (launch_server : Bool) : ResolveResult :=
  let s0 := reg.servers ftId
  let sIdx := match s0.referenced with | some j => j | none => ftId
  let s := reg.servers sIdx
  if s.startup_shutdown then { reg := reg, result := none, spawned := [] }
  else if s.has_process then { reg := reg, result := some sIdx, spawned := [] }
  else if s.not_used then { reg := reg, result := none, spawned := [] }
  else if is_dead s.restarts then { reg := reg, result := none, spawned := [] }
  else if !launch_server then { reg := reg, result := none, spawned := [] }
  else
    match s.ref_lang with
    | some name =>
        match reg.ftByName name with
        | some j =>
            let reg1 := setServer reg sIdx { s with referenced := some j }
            if (reg1.servers j).has_process then
              { reg := reg1, result := some j, spawned := [] }
            else finish_start spawn_ok reg1 j
        | none => finish_start spawn_ok reg sIdx
    | none => finish_start spawn_ok reg sIdx

/-- server_get_configured_for_ft (lines 806-826): follow a configured
reference language exactly one hop; an unknown reference language resolves
to NULL. -/
def server_get_configured_for_ft (reg : Registry) (ftId : Nat) : Option Nat :=
  let s := reg.servers ftId
  match s.ref_lang with
  | some name =>
      match reg.ftByName name with
      | some j => some j
      | none => none
  | none => some ftId

/-- lsp_server_is_usable (lines 858-866) at the session level: false when
the configured session does not resolve, otherwise the resolved session
must be neither not_used nor dead. -/
def lsp_server_is_usable (reg : Registry) (ftId : Nat) : Bool :=
  match server_get_configured_for_ft reg ftId with
  | none => false
  | some j => !(reg.servers j).not_used && !is_dead (reg.servers j).restarts

end Reg

/-! ## Helper lemmas -/

/-- update_config never raises a flag: its result is at most the flag it
was given. -/
theorem update_config_le (capVal : Option Bool) (x : Bool) :
    Negotiate.update_config capVal x ≤ x := by
  cases capVal with
  | none => simp [Negotiate.update_config]
  | some b => cases b <;> cases x <;> simp [Negotiate.update_config]

/-- A guarded-disable update never raises a flag. -/
theorem ite_false_le (c : Prop) [Decidable c] (x : Bool) :
    (if c then false else x) ≤ x := by
  split
  · simp
  · exact le_refl x

/-- A guarded-keep update never raises a flag. -/
theorem ite_le_self (c : Prop) [Decidable c] (x : Bool) :
    (if c then x else false) ≤ x := by
  split
  · exact le_refl x
  · simp

/-- Looking a path up after an insert: the inserted binding answers for its
own path and shadows nothing else. -/
theorem lookupVer_insert (m : List (String × Nat)) (q p : String) (n : Nat) :
    Sync.lookupVer (Sync.insertVer m q n) p =
      if q = p then some n else Sync.lookupVer m p := rfl

/-- Drawing a version number for a document with real path p returns the
recorded version + 1 and records it back. -/
theorem get_next_version_spec (doc : Sync.GeanyDocument) (st : Sync.SyncState)
    (p : String) (hp : doc.real_path = some p) :
    (Sync.get_next_doc_version_num doc st).1 = Sync.versionOf st p + 1 ∧
    Sync.versionOf (Sync.get_next_doc_version_num doc st).2 p = Sync.versionOf st p + 1 := by
  simp [Sync.get_next_doc_version_num, hp, Sync.versionOf, lookupVer_insert]

/-- Drawing a version number never lowers the recorded version of any path. -/
theorem versionOf_get_next_mono (doc : Sync.GeanyDocument) (st : Sync.SyncState)
    (p : String) :
    Sync.versionOf st p ≤ Sync.versionOf (Sync.get_next_doc_version_num doc st).2 p := by
  cases hq : doc.real_path with
  | none => simp [Sync.get_next_doc_version_num, hq]
  | some q =>
      by_cases hqp : q = p
      · subst hqp
        simp [Sync.get_next_doc_version_num, hq, Sync.versionOf, lookupVer_insert]
      · simp [Sync.get_next_doc_version_num, hq, Sync.versionOf, lookupVer_insert, hqp]

/-- The recorded versions do not depend on the set of open documents. -/
theorem versionOf_set_open (st : Sync.SyncState) (l : List Nat) (p : String) :
    Sync.versionOf { st with open_docs := l } p = Sync.versionOf st p := rfl

/-- No single sync operation lowers the recorded version of any path. -/
theorem versionOf_applyOp_mono (st : Sync.SyncState) (op : Sync.SyncOp) (p : String) :
    Sync.versionOf st p ≤ Sync.versionOf (Sync.applyOp st op) p := by
  cases op with
  | openDoc doc =>
      by_cases h : Sync.lsp_sync_is_document_open st doc
      · simp [Sync.applyOp, Sync.lsp_sync_text_document_did_open, h]
      · simp only [Sync.applyOp, Sync.lsp_sync_text_document_did_open, h, Bool.false_eq_true,
          if_false]
        exact le_trans
          (le_of_eq (versionOf_set_open st (doc.id :: st.open_docs) p).symm)
          (versionOf_get_next_mono doc { st with open_docs := doc.id :: st.open_docs } p)
  | closeDoc doc =>
      by_cases h : Sync.lsp_sync_is_document_open st doc <;>
        simp [Sync.applyOp, Sync.lsp_sync_text_document_did_close, h, Sync.versionOf]
  | saveDoc doc => simp [Sync.applyOp, Sync.lsp_sync_text_document_did_save]
  | changeDoc inc doc a b c d t =>
      cases inc <;>
        simpa [Sync.applyOp, Sync.lsp_sync_text_document_did_change] using
          versionOf_get_next_mono doc st p
  | reinit => simp [Sync.applyOp, Sync.lsp_sync_init, Sync.versionOf]

/-- No sequence of sync operations lowers the recorded version of any path. -/
theorem versionOf_applyOps_mono (ops : List Sync.SyncOp) (st : Sync.SyncState) (p : String) :
    Sync.versionOf st p ≤ Sync.versionOf (Sync.applyOps st ops) p := by
  induction ops generalizing st with
  | nil => exact le_refl _
  | cons op rest ih =>
      exact le_trans (versionOf_applyOp_mono st op p) (ih (Sync.applyOp st op))

/-- did_open on an already-open document returns the state unchanged and
emits nothing. -/
theorem did_open_noop (doc : Sync.GeanyDocument) (st : Sync.SyncState)
    (h : Sync.lsp_sync_is_document_open st doc = true) :
    Sync.lsp_sync_text_document_did_open doc st = (st, none) := by
  simp [Sync.lsp_sync_text_document_did_open, h]

/-- After any did_open the document is recorded open. -/
theorem did_open_marks_open (doc : Sync.GeanyDocument) (st : Sync.SyncState) :
    Sync.lsp_sync_is_document_open (Sync.lsp_sync_text_document_did_open doc st).1 doc
      = true := by
  by_cases h : Sync.lsp_sync_is_document_open st doc
  · simp [Sync.lsp_sync_text_document_did_open, h]
  · have h' : doc.id ∉ st.open_docs := by
      simpa [Sync.lsp_sync_is_document_open] using h
    cases hq : doc.real_path <;>
      simp [Sync.lsp_sync_text_document_did_open, Sync.lsp_sync_is_document_open, h', hq,
        Sync.get_next_doc_version_num]

/-- did_open on a non-open saved document: the open record is added, the
version counter of the path is bumped and stored, and the emitted notification
carries URI, language id, the bumped version and the full text. -/
theorem did_open_emits (doc : Sync.GeanyDocument) (st : Sync.SyncState) (p : String)
    (h : Sync.lsp_sync_is_document_open st doc = false) (hp : doc.real_path = some p) :
    Sync.lsp_sync_text_document_did_open doc st =
      ({ open_docs := doc.id :: st.open_docs,
         doc_version_nums := Sync.insertVer st.doc_version_nums p (Sync.versionOf st p + 1) },
       some { uri := doc.uri, languageId := doc.lang_id,
              version := Sync.versionOf st p + 1, text := doc.text }) := by
  simp only [Sync.lsp_sync_text_document_did_open, h, Bool.false_eq_true, if_false]
  simp [Sync.get_next_doc_version_num, hp, Sync.versionOf]

/-- did_open on a non-open unsaved document: the open record is added, no
version counter is touched, and the emitted notification carries version 0. -/
theorem did_open_emits_unsaved (doc : Sync.GeanyDocument) (st : Sync.SyncState)
    (h : Sync.lsp_sync_is_document_open st doc = false) (hp : doc.real_path = none) :
    Sync.lsp_sync_text_document_did_open doc st =
      ({ st with open_docs := doc.id :: st.open_docs },
       some { uri := doc.uri, languageId := doc.lang_id, version := 0, text := doc.text }) := by
  simp only [Sync.lsp_sync_text_document_did_open, h, Bool.false_eq_true, if_false]
  simp [Sync.get_next_doc_version_num, hp]

/-- Re-initializing the sync engine leaves every document closed. -/
theorem is_open_init (st : Sync.SyncState) (doc : Sync.GeanyDocument) :
    Sync.lsp_sync_is_document_open (Sync.lsp_sync_init st) doc = false := rfl

/-- did_change always threads the state through the version draw and stamps
the drawn number on the notification, in both sync modes. -/
theorem did_change_components (inc : Bool) (doc : Sync.GeanyDocument)
    (a b c d : Int) (txt : String) (st : Sync.SyncState) :
    (Sync.lsp_sync_text_document_did_change inc doc a b c d txt st).1 =
      (Sync.get_next_doc_version_num doc st).2 ∧
    (Sync.lsp_sync_text_document_did_change inc doc a b c d txt st).2.version =
      (Sync.get_next_doc_version_num doc st).1 := by
  cases inc <;> simp [Sync.lsp_sync_text_document_did_change]

/-! ## Claim theorems -/

/-- Claim C2: a did_change on a document with a real file path bumps that
version counter of that path by exactly 1, the notification carries the bumped
number, the contentChanges array has exactly one entry — the supplied range
and replacement text under incremental sync, the full current document text
otherwise — and a later did_change for the same path, after any sequence of
sync operations, always carries a strictly larger version, so a version
never repeats within one run. -/
theorem c2_did_change_spec (inc : Bool) (doc : Sync.GeanyDocument) (p : String)
    (a b c d : Int) (txt : String) (st : Sync.SyncState)
    (hp : doc.real_path = some p) :
    ((Sync.lsp_sync_text_document_did_change inc doc a b c d txt st).2.version =
       Sync.versionOf st p + 1) ∧
    (Sync.versionOf (Sync.lsp_sync_text_document_did_change inc doc a b c d txt st).1 p =
       Sync.versionOf st p + 1) ∧
    ((Sync.lsp_sync_text_document_did_change inc doc a b c d txt st).2.contentChanges =
       [if inc then Sync.ContentChange.rangeChange a b c d txt
        else Sync.ContentChange.fullChange doc.text]) ∧
    (∀ (ops : List Sync.SyncOp) (doc2 : Sync.GeanyDocument) (inc2 : Bool)
       (a2 b2 c2 d2 : Int) (t2 : String), doc2.real_path = some p →
       (Sync.lsp_sync_text_document_did_change inc doc a b c d txt st).2.version <
         (Sync.lsp_sync_text_document_did_change inc2 doc2 a2 b2 c2 d2 t2
           (Sync.applyOps (Sync.lsp_sync_text_document_did_change inc doc a b c d txt st).1
             ops)).2.version) := by
  obtain ⟨hst, hver⟩ := did_change_components inc doc a b c d txt st
  obtain ⟨hn1, hn2⟩ := get_next_version_spec doc st p hp
  refine ⟨by rw [hver, hn1], by rw [hst, hn2], ?_, ?_⟩
  · cases inc <;> simp [Sync.lsp_sync_text_document_did_change]
  · intro ops doc2 inc2 a2 b2 c2 d2 t2 hp2
    rw [hver, hn1, hst]
    obtain ⟨_, hver2⟩ :=
      did_change_components inc2 doc2 a2 b2 c2 d2 t2
        (Sync.applyOps (Sync.get_next_doc_version_num doc st).2 ops)
    obtain ⟨hm1, _⟩ :=
      get_next_version_spec doc2
        (Sync.applyOps (Sync.get_next_doc_version_num doc st).2 ops) p hp2
    rw [hver2, hm1]
    have hmono :=
      versionOf_applyOps_mono ops (Sync.get_next_doc_version_num doc st).2 p
    rw [hn2] at hmono
    omega

/-- A concrete saved document used to instantiate the sync theorems. -/
def wdoc : Sync.GeanyDocument :=
  { id := 1, real_path := some "main.c", text := "int main;", uri := "file:///main.c",
    lang_id := "c" }

/-- Witness for claim C2: on a fresh state, a did_change on a saved
document emits version 1 with the single supplied range edit. -/
theorem c2_did_change_spec_witness :
    wdoc.real_path = some "main.c" ∧
    (Sync.lsp_sync_text_document_did_change true wdoc 2 0 2 5 "abc"
      Sync.SyncState.empty).2.version = Sync.versionOf Sync.SyncState.empty "main.c" + 1 :=
  ⟨rfl, (c2_did_change_spec true wdoc "main.c" 2 0 2 5 "abc" Sync.SyncState.empty rfl).1⟩

/-- Claim C4: did_open is a no-op on an already-open document; on a
non-open document it marks it open and emits exactly one didOpen
notification carrying the URI of the document, its language identifier, drawn
version and full current text; a second did_open therefore emits nothing,
so two successive did_open calls produce exactly one notification. -/
theorem c4_did_open_idempotent (doc : Sync.GeanyDocument) (st : Sync.SyncState) :
    (Sync.lsp_sync_is_document_open st doc = true →
       Sync.lsp_sync_text_document_did_open doc st = (st, none)) ∧
    (Sync.lsp_sync_is_document_open st doc = false →
       (Sync.lsp_sync_text_document_did_open doc st).2 =
         some { uri := doc.uri, languageId := doc.lang_id,
                version := match doc.real_path with
                           | some p => Sync.versionOf st p + 1
                           | none => 0,
                text := doc.text } ∧
       Sync.lsp_sync_is_document_open (Sync.lsp_sync_text_document_did_open doc st).1 doc
         = true) ∧
    (Sync.lsp_sync_text_document_did_open doc
       (Sync.lsp_sync_text_document_did_open doc st).1).2 = none := by
  refine ⟨did_open_noop doc st, ?_, ?_⟩
  · intro h
    refine ⟨?_, did_open_marks_open doc st⟩
    cases hq : doc.real_path with
    | none => rw [did_open_emits_unsaved doc st h hq]
    | some p =>
        rw [did_open_emits doc st p h hq]
  · rw [did_open_noop doc _ (did_open_marks_open doc st)]

/-- Witness for claim C4: opening a document on the fresh state, then
opening it again, emits exactly one notification. -/
theorem c4_did_open_idempotent_witness :
    Sync.lsp_sync_is_document_open Sync.SyncState.empty wdoc = false ∧
    Sync.lsp_sync_is_document_open
      (Sync.lsp_sync_text_document_did_open wdoc Sync.SyncState.empty).1 wdoc = true :=
  ⟨by decide,
   ((c4_did_open_idempotent wdoc Sync.SyncState.empty).2.1 (by decide)).2⟩

/-- Counterexample to claim C5: open a saved document (didOpen version 1),
edit it once (didChange version 2), restart the sync engine
(lsp_sync_init), and open it again — the first didOpen after the restart
carries version 3, not version 1 as the claim states. -/
theorem c5_version_persists_counterexample :
    (Sync.lsp_sync_text_document_did_open wdoc
        (Sync.lsp_sync_init
          (Sync.lsp_sync_text_document_did_change true wdoc 0 0 0 1 "x"
            (Sync.lsp_sync_text_document_did_open wdoc Sync.SyncState.empty).1).1)).2 =
      some { uri := "file:///main.c", languageId := "c", version := 3,
             text := "int main;" } ∧
    ¬ (Sync.lsp_sync_text_document_did_open wdoc
        (Sync.lsp_sync_init
          (Sync.lsp_sync_text_document_did_change true wdoc 0 0 0 1 "x"
            (Sync.lsp_sync_text_document_did_open wdoc Sync.SyncState.empty).1).1)).2 =
      some { uri := "file:///main.c", languageId := "c", version := 1,
             text := "int main;" } := by
  constructor
  · rfl
  · decide

/-- Claim C5 (amended): the per-path version counter starts at 1 on the
first didOpen ever sent for that path within one editor run, and it is
persisted across server restarts: re-initializing the sync engine clears
only the open-document set and leaves the version table untouched, so the
first didOpen after a restart carries the previously recorded version + 1,
not 1. -/
theorem c5_version_counter_lifetime (st : Sync.SyncState) (doc : Sync.GeanyDocument)
    (p : String) (hp : doc.real_path = some p) :
    ((Sync.lsp_sync_init st).doc_version_nums = st.doc_version_nums) ∧
    (Sync.lsp_sync_is_document_open (Sync.lsp_sync_init st) doc = false) ∧
    ((Sync.lsp_sync_text_document_did_open doc (Sync.lsp_sync_init st)).2 =
       some { uri := doc.uri, languageId := doc.lang_id,
              version := Sync.versionOf st p + 1, text := doc.text }) ∧
    ((Sync.lsp_sync_text_document_did_open doc Sync.SyncState.empty).2 =
       some { uri := doc.uri, languageId := doc.lang_id, version := 1, text := doc.text }) := by
  refine ⟨rfl, rfl, ?_, ?_⟩
  · rw [did_open_emits doc (Sync.lsp_sync_init st) p (is_open_init st doc) hp]
    rfl
  · rw [did_open_emits doc Sync.SyncState.empty p rfl hp]
    simp [Sync.versionOf, Sync.SyncState.empty, Sync.lookupVer]

/-- Witness for the amended claim C5: after an open-edit-restart cycle on a
saved document the next didOpen carries the recorded version + 1. -/
theorem c5_version_counter_lifetime_witness :
    wdoc.real_path = some "main.c" ∧
    (Sync.lsp_sync_text_document_did_open wdoc Sync.SyncState.empty).2 =
      some { uri := wdoc.uri, languageId := wdoc.lang_id, version := 1, text := wdoc.text } :=
  ⟨rfl,
   (c5_version_counter_lifetime Sync.SyncState.empty wdoc "main.c" rfl).2.2.2⟩

/-- Claim C3: incremental sync is selected when and only when the
textDocumentSync capability the initialize response effectively declares
(the nested change field when present, else the bare numeric value) equals
2; any other value, 0 and absence included, selects full-document sync. -/
theorem c3_incremental_sync_iff (caps : Negotiate.ServerCaps) (f : Negotiate.FeatureFlags) :
    (Negotiate.initialize_cb_caps caps f).incremental = true ↔
      Negotiate.syncCapabilityValue caps = some 2 := by
  unfold Negotiate.initialize_cb_caps Negotiate.use_incremental_sync
    Negotiate.syncCapabilityValue
  cases caps.textDocumentSyncChange with
  | some v => simp
  | none =>
      cases caps.textDocumentSyncNumber with
      | some v => simp
      | none => simp

/-- The feature flags all locally enabled, used as a concrete negotiation
input. -/
def allFlagsOn : Negotiate.FeatureFlags :=
  { autocomplete_enable := true, signature_enable := true, hover_enable := true,
    goto_enable := true, document_symbols_enable := true,
    highlighting_enable := true, semantic_tokens_enable := true }

/-- Counterexample to claim C6: on an initialize response in which
workspaceSymbolProvider is absent, negotiation leaves the workspace-symbols
feature disabled, not enabled as the claim states. -/
theorem c6_absent_capability_disables :
    (Negotiate.initialize_cb_caps Negotiate.ServerCaps.absent allFlagsOn).supports_workspace_symbols
      = false := by
  decide

/-- Claim C6 (amended): after negotiation the workspace-symbols feature is
enabled exactly when the server declares workspaceSymbolProvider as the
boolean true; absence, a non-boolean value and an explicit false all
disable it; the outcome is independent of the local feature flags because
the field is reset to enabled before the restriction is applied. -/
theorem c6_workspace_symbols (caps : Negotiate.ServerCaps)
    (f g : Negotiate.FeatureFlags) :
    ((Negotiate.initialize_cb_caps caps f).supports_workspace_symbols = true ↔
       caps.workspaceSymbolProvider = some true) ∧
    (Negotiate.initialize_cb_caps caps f).supports_workspace_symbols =
      (Negotiate.initialize_cb_caps caps g).supports_workspace_symbols := by
  refine ⟨?_, rfl⟩
  unfold Negotiate.initialize_cb_caps Negotiate.update_config
  cases h : caps.workspaceSymbolProvider with
  | none => simp
  | some b => cases b <;> simp

/-- Claim C7: capability negotiation only ever lowers the seven
feature-enable flags (true may become false, false never becomes true), and
an empty completion trigger-character set or an empty signature-help
trigger-character set force-disables the corresponding feature whatever the
local configuration says. -/
theorem c7_one_way_restriction (caps : Negotiate.ServerCaps)
    (f : Negotiate.FeatureFlags) :
    ((Negotiate.initialize_cb_caps caps f).flags.autocomplete_enable ≤ f.autocomplete_enable) ∧
    ((Negotiate.initialize_cb_caps caps f).flags.signature_enable ≤ f.signature_enable) ∧
    ((Negotiate.initialize_cb_caps caps f).flags.hover_enable ≤ f.hover_enable) ∧
    ((Negotiate.initialize_cb_caps caps f).flags.goto_enable ≤ f.goto_enable) ∧
    ((Negotiate.initialize_cb_caps caps f).flags.document_symbols_enable ≤ f.document_symbols_enable) ∧
    ((Negotiate.initialize_cb_caps caps f).flags.highlighting_enable ≤ f.highlighting_enable) ∧
    ((Negotiate.initialize_cb_caps caps f).flags.semantic_tokens_enable ≤ f.semantic_tokens_enable) ∧
    ((Negotiate.initialize_cb_caps
        { caps with completionTriggerCharacters := some [] } f).flags.autocomplete_enable = false) ∧
    ((Negotiate.initialize_cb_caps
        { caps with signatureTriggerCharacters := some [] } f).flags.signature_enable = false) := by
  refine ⟨ite_false_le _ _, ite_false_le _ _, update_config_le _ _, update_config_le _ _,
          update_config_le _ _, update_config_le _ _, ite_le_self _ _, ?_, ?_⟩
  · simp [Negotiate.initialize_cb_caps, Negotiate.get_autocomplete_trigger_chars, String.join]
  · simp [Negotiate.initialize_cb_caps, Negotiate.get_signature_trigger_chars, String.join]

/-- The shutdown-tracking state of a session at the moment stop_process is
invoked on it: not yet in servers_in_shutdown, nothing sent, not
force-terminated. -/
def Shutdown.initShut : Shutdown.ShutState :=
  { in_shutdown := false, startup_shutdown := false, shutdown_sent := false,
    exit_sent := false, force_terminated := false }

/-- Every invocation of start_lsp_server increments the restart counter by
exactly one, whether the session turns out dead, the spawn fails, or the
spawn succeeds. -/
theorem start_increments (ok : Bool) (t : Lifecycle.Trace) :
    (Lifecycle.start_lsp_server ok t).srv.restarts = t.srv.restarts + 1 := by
  cases ok <;> by_cases hd : is_dead (t.srv.restarts + 1) <;>
    simp [Lifecycle.start_lsp_server, hd]

/-- A dead session stays dead through any further start invocation. -/
theorem dead_stays_dead (ok : Bool) (t : Lifecycle.Trace)
    (h : is_dead t.srv.restarts = true) :
    is_dead (Lifecycle.start_lsp_server ok t).srv.restarts = true := by
  rw [start_increments]
  simp only [is_dead, decide_eq_true_eq] at h ⊢
  omega

/-- Counterexample to claim C1: a session whose initialize request fails
five times consecutively reaches DEAD after 5 spawn attempts including the
original, not 6 — the sixth start invocation returns before spawnv. -/
theorem c1_spawn_count_counterexample :
    (Lifecycle.afterFailures 5).spawn_count = 5 ∧
    is_dead (Lifecycle.afterFailures 5).srv.restarts = true ∧
    ¬ (Lifecycle.afterFailures 5).spawn_count = 6 := by
  refine ⟨by decide, by decide, by decide⟩

/-- Claim C1 (amended): a restart counter above 5 makes the session DEAD
permanently — any further start trigger leaves the trace unchanged (no
spawn, no additional dialog), and a direct start invocation keeps the
session dead; a session that fails initialize five times consecutively
reaches DEAD with the giving-up dialog shown exactly once, after 5 total
spawn attempts including the original (the restart counter then reads 6,
the sixth start invocation having spawned nothing). -/
theorem c1_crash_ceiling (t : Lifecycle.Trace) (ok : Bool)
    (h : is_dead t.srv.restarts = true) :
    Lifecycle.trigger_start ok t = t ∧
    is_dead (Lifecycle.start_lsp_server ok t).srv.restarts = true ∧
    is_dead (Lifecycle.afterFailures 5).srv.restarts = true ∧
    (Lifecycle.afterFailures 5).srv.restarts = 6 ∧
    (Lifecycle.afterFailures 5).spawn_count = 5 ∧
    (Lifecycle.afterFailures 5).dead_dialogs = 1 ∧
    Lifecycle.trigger_start true (Lifecycle.afterFailures 5) = Lifecycle.afterFailures 5 := by
  refine ⟨?_, dead_stays_dead ok t h, by decide, by decide, by decide, by decide, by decide⟩
  unfold Lifecycle.trigger_start
  by_cases h1 : t.srv.startup_shutdown <;> by_cases h2 : t.srv.has_process <;>
    by_cases h3 : t.srv.not_used <;> simp [h, h1, h2, h3]

/-- Witness for the amended claim C1: the concrete five-failure trace is
dead and a sixth trigger changes nothing. -/
theorem c1_crash_ceiling_witness :
    is_dead (Lifecycle.afterFailures 5).srv.restarts = true ∧
    Lifecycle.trigger_start false (Lifecycle.afterFailures 5) = Lifecycle.afterFailures 5 :=
  ⟨by decide,
   (c1_crash_ceiling (Lifecycle.afterFailures 5) false (by decide)).1⟩

/-- Claim C10: every start invocation bumps the restart counter by exactly
1 before the spawn attempt, whatever the outcome (spawn failures included,
so they count toward the crash ceiling), and every registry trigger and
both replacement paths (failed initialize, unexpected process exit) leave
the counter non-decreasing across the session replacement chain. -/
theorem c10_restart_counter (t : Lifecycle.Trace) (ok : Bool) :
    ((Lifecycle.start_lsp_server ok t).srv.restarts = t.srv.restarts + 1) ∧
    ((Lifecycle.start_lsp_server false t).srv.restarts = t.srv.restarts + 1) ∧
    ((Lifecycle.initialize_cb_failed ok t).srv.restarts = t.srv.restarts + 1) ∧
    (t.srv.restarts ≤ (Lifecycle.trigger_start ok t).srv.restarts) ∧
    (t.srv.restarts ≤ (Lifecycle.process_stopped ok t).srv.restarts) := by
  refine ⟨start_increments ok t, start_increments false t, ?_, ?_, ?_⟩
  · unfold Lifecycle.initialize_cb_failed
    rw [start_increments]
  · unfold Lifecycle.trigger_start
    by_cases h1 : t.srv.startup_shutdown <;> by_cases h2 : t.srv.has_process <;>
      by_cases h3 : t.srv.not_used <;> by_cases h4 : is_dead t.srv.restarts <;>
        by_cases h5 : t.srv.cmd_nonempty <;>
          simp [h1, h2, h3, h4, h5, start_increments]
  · unfold Lifecycle.process_stopped
    by_cases h2 : t.srv.has_process <;> simp [h2, start_increments]

/-- finish_start only ever spawns the session it was asked to start. -/
theorem finish_start_spawned (ok : Bool) (reg : Reg.Registry) (k : Nat) :
    (Reg.finish_start ok reg k).spawned = [] ∨
    (Reg.finish_start ok reg k).spawned = [k] := by
  unfold Reg.finish_start
  dsimp only
  split
  · left
    rfl
  · dsimp only
    split
    · right
      rfl
    · left
      rfl

/-- Any session spawned by finish_start is the requested one. -/
theorem finish_start_spawned_mem (ok : Bool) (reg : Reg.Registry) (i k : Nat)
    (h : i ∈ (Reg.finish_start ok reg k).spawned) : i = k := by
  rcases finish_start_spawned ok reg k with hsp | hsp <;> rw [hsp] at h <;> simp_all

/-- Claim C9: for a session A configured with a reference-language alias
whose target resolves to a distinct session B: resolution is one hop
(server_get_configured_for_ft returns B itself, never the alias
target); when B has a running process, resolving A returns B, spawns
nothing and caches the reference on A; in every resolution of A only B can
ever be spawned, so A never spawns its own process; and for any session
whose reference language is unknown to the filetype registry, the session
is unusable. -/
theorem c9_reference_alias (ok : Bool) (reg : Reg.Registry) (ftId j : Nat) (name : String)
    (h1 : (reg.servers ftId).referenced = none)
    (h2 : (reg.servers ftId).startup_shutdown = false)
    (h3 : (reg.servers ftId).has_process = false)
    (h4 : (reg.servers ftId).not_used = false)
    (h5 : is_dead (reg.servers ftId).restarts = false)
    (h6 : (reg.servers ftId).ref_lang = some name)
    (h7 : reg.ftByName name = some j)
    (h8 : j ≠ ftId) :
    (Reg.server_get_configured_for_ft reg ftId = some j) ∧
    ((reg.servers j).has_process = true →
       (Reg.server_get_or_start_for_ft ok reg ftId true).result = some j ∧
       (Reg.server_get_or_start_for_ft ok reg ftId true).spawned = [] ∧
       ((Reg.server_get_or_start_for_ft ok reg ftId true).reg.servers ftId).referenced
         = some j) ∧
    (∀ i ∈ (Reg.server_get_or_start_for_ft ok reg ftId true).spawned, i = j) ∧
    (∀ (reg2 : Reg.Registry) (ft2 : Nat) (nm : String),
       (reg2.servers ft2).ref_lang = some nm → reg2.ftByName nm = none →
       Reg.lsp_server_is_usable reg2 ft2 = false) := by
  have hja : ∀ srv, (Reg.setServer reg ftId srv).servers j = reg.servers j := by
    intro srv
    simp [Reg.setServer, h8]
  refine ⟨?_, ?_, ?_, ?_⟩
  · simp [Reg.server_get_configured_for_ft, h6, h7]
  · intro hB
    refine ⟨?_, ?_, ?_⟩ <;>
      simp [Reg.server_get_or_start_for_ft, h1, h2, h3, h4, h5, h6, h7, h8, hja, hB,
        Reg.setServer]
  · intro i hi
    simp only [Reg.server_get_or_start_for_ft, h1, h2, h3, h4, h5, h6, h7, hja,
      Bool.false_eq_true, if_false, Bool.not_true] at hi
    cases hBb : (reg.servers j).has_process with
    | true => simp [hBb] at hi
    | false =>
        simp only [hBb, Bool.false_eq_true, if_false] at hi
        exact finish_start_spawned_mem ok _ i j hi
  · intro reg2 ft2 nm hm1 hm2
    simp [Reg.lsp_server_is_usable, Reg.server_get_configured_for_ft, hm1, hm2]

/-- Session A at slot 0: no process, aliasing the reference language C. -/
def wsrvA : Reg.RegSrv :=
  { startup_shutdown := false, has_process := false, not_used := false,
    restarts := 0, referenced := none, ref_lang := some "C", cmd := none }

/-- Session B at slot 1: a running server. -/
def wsrvB : Reg.RegSrv :=
  { startup_shutdown := false, has_process := true, not_used := false,
    restarts := 1, referenced := none, ref_lang := none, cmd := some "clangd" }

/-- A two-slot registry in which slot 0 aliases slot 1 via language C. -/
def wreg : Reg.Registry :=
  { servers := fun i => if i = 1 then wsrvB else wsrvA,
    ftByName := fun s => if s = "C" then some 1 else none }

/-- Witness for claim C9: resolving the aliasing session returns the
running target and spawns nothing. -/
theorem c9_reference_alias_witness :
    (Reg.server_get_or_start_for_ft true wreg 0 true).result = some 1 ∧
    (Reg.server_get_or_start_for_ft true wreg 0 true).spawned = [] := by
  have h := (c9_reference_alias true wreg 0 1 "C" rfl rfl rfl rfl rfl rfl
    (by simp [wreg]) (by decide)).2.1 rfl
  exact ⟨h.1, h.2.1⟩

/-- Claim C8: stopping a running session sends the shutdown request first,
sends the exit notification exactly when the shutdown request succeeded,
force-terminates the process exactly when the shutdown request or the exit
notification failed, and in every branch removes the session from the
in-shutdown set. -/
theorem c8_two_phase_stop (shutdown_error exit_error : Bool) :
    ((Shutdown.stop_process shutdown_error exit_error Shutdown.initShut).shutdown_sent = true) ∧
    ((Shutdown.stop_process shutdown_error exit_error Shutdown.initShut).exit_sent = !shutdown_error) ∧
    ((Shutdown.stop_process shutdown_error exit_error Shutdown.initShut).force_terminated =
       (shutdown_error || exit_error)) ∧
    ((Shutdown.stop_process shutdown_error exit_error Shutdown.initShut).in_shutdown = false) := by
  cases shutdown_error <;> cases exit_error <;> decide
